import Mathlib

/-!
Shallow embedding of the aura-app artwork catalog core (Django application),
covering the photo primary-flag invariant, reference-entity find-or-create,
shared/owner-scoped reference vocabulary, artwork filtering, the rotation
suggestion view, and reference deletion semantics.

Conventions of the embedding:
* database tables are lists of rows, in insertion order, together with the
  next autoincrement primary key where the table uses sequential ids;
* `DateField` values are day numbers (`Int`), `datetime.now().date()` is a
  `today : Int` parameter supplied by the caller;
* `random.choice` over a materialized list is modelled by an arbitrary
  index `choice : Nat`, reduced modulo the list length;
* a Django `QuerySet.filter` chain over one table is a `List.filter`;
* raising / catching exceptions is modelled with `Except`.
-/

namespace Aura

/-! ### PhotoSet: `artworks/models.py`, class `ArtworkPhoto`

Fields of the Django model that the logic touches: `artwork` (FK), `caption`,
`is_primary`, `created_at`.  The image blobs are opaque references and are
not part of the logic. -/

structure Photo where
  pk : Nat
  artwork : Nat
  caption : String
  isPrimary : Bool
  createdAt : Nat
deriving Repr, DecidableEq

/-- `super().save(*args, **kwargs)`: Django ORM insert-or-update by primary
key — if a row with this pk exists it is replaced, otherwise the row is
appended. -/
def upsertPhoto (p : Photo) (db : List Photo) : List Photo :=
  if db.any (fun q => q.pk = p.pk) then
    db.map (fun q => if q.pk = p.pk then p else q)
  else
    db ++ [p]

/-- The bulk update in `ArtworkPhoto.save`:
`ArtworkPhoto.objects.filter(artwork=self.artwork).exclude(pk=self.pk).update(is_primary=False)`
applied to a single row. -/
def clearOther (p q : Photo) : Photo :=
  if q.artwork = p.artwork ∧ q.pk ≠ p.pk then { q with isPrimary := false } else q

/-- `ArtworkPhoto.save` (models.py lines 436–451): when `self.is_primary`,
first persist the row, then clear `is_primary` on every other photo of the
same artwork; otherwise persist the row unchanged. -/
def artworkPhotoSave (p : Photo) (db : List Photo) : List Photo :=
  if p.isPrimary then (upsertPhoto p db).map (clearOther p)
  else upsertPhoto p db

/-- Deleting a photo row: plain row removal, there is no promotion logic
anywhere in the model or the views. -/
def deletePhoto (pk : Nat) (db : List Photo) : List Photo :=
  db.filter (fun q => q.pk ≠ pk)

/-- The operations the photo formset can perform on the photo table. -/
inductive PhotoOp where
  | save (p : Photo)
  | del (pk : Nat)
deriving Repr

def applyPhotoOp (db : List Photo) : PhotoOp → List Photo
  | PhotoOp.save p => artworkPhotoSave p db
  | PhotoOp.del k => deletePhoto k db

/-- Running a sequence of photo operations against an initially empty photo
table. -/
def runPhotoOps (ops : List PhotoOp) : List Photo :=
  ops.foldl applyPhotoOp []

/-- Number of photos of artwork `aw` whose `is_primary` flag is set. -/
def primaryCount (db : List Photo) (aw : Nat) : Nat :=
  (db.filter (fun q => q.artwork = aw ∧ q.isPrimary = true)).length

/-- Well-formedness of the photo table: primary keys are distinct, and any
two primary photos of the same artwork are the same row. -/
def PhotoWF (db : List Photo) : Prop :=
  (db.map Photo.pk).Nodup ∧
    ∀ p ∈ db, ∀ q ∈ db,
      p.isPrimary = true → q.isPrimary = true → p.artwork = q.artwork → p.pk = q.pk

/-! ### VocabularyRegistry: `artworks/views.py`, `_create_by_name_ajax_impl`

A reference entity row: sequential id, name, and (for the owner-scoped kinds
Artist / Collection / Exhibition) a `user` foreign key; the shared kinds
ArtType / Support / Technique store no user (`user = none`). -/

/-- Python `str.strip()`: drop leading and trailing whitespace. -/
def stripChars (l : List Char) : List Char :=
  ((l.dropWhile Char.isWhitespace).reverse.dropWhile Char.isWhitespace).reverse

def pyStrip (s : String) : String :=
  String.mk (stripChars s.data)

structure RefEntity where
  id : Nat
  name : String
  user : Option Nat
deriving Repr, DecidableEq

structure RefStore where
  rows : List RefEntity
  nextId : Nat
deriving Repr, DecidableEq

/-- The lookup key of `get_or_create(**kwargs)` in
`_create_by_name_ajax_impl`: `kwargs = {"name": name}` plus
`kwargs["user"] = request.user` when `with_user` is set. -/
def refKeyMatch (name : String) (owner : Nat) (withUser : Bool) (e : RefEntity) : Bool :=
  decide (e.name = name) && (!withUser || decide (e.user = some owner))

/-- Django `Model.objects.get_or_create(defaults, **kwargs)`: `get` returns
the row when exactly one matches, raises `MultipleObjectsReturned` when
several match, and on `DoesNotExist` a fresh row is inserted with the next
sequential id.  The `defaults` used by the views only fill blank text
columns and do not affect the key. -/
def getOrCreate (name : String) (owner : Nat) (withUser : Bool) (s : RefStore) :
    Except String (Nat × Bool) × RefStore :=
  match s.rows.filter (refKeyMatch name owner withUser) with
  | [] =>
      (Except.ok (s.nextId, true),
        { rows := s.rows ++
            [{ id := s.nextId, name := name, user := if withUser then some owner else none }],
          nextId := s.nextId + 1 })
  | [e] => (Except.ok (e.id, false), s)
  | _ => (Except.error "MultipleObjectsReturned", s)

/-- JSON responses of `_create_by_name_ajax_impl`: the success payload, the
400 missing-name error, and the 500 generic error. -/
inductive AjaxResult where
  | success (id : Nat) (name : String) (created : Bool)
  | badRequest (err : String)
  | serverError (err : String)
deriving Repr, DecidableEq

/-- `_create_by_name_ajax_impl` (views.py lines 243–274): read the `name`
field of the JSON body (absent means `""`), strip it, reject a blank name
with a 400 response, otherwise find-or-create the entity; any exception
becomes a 500 response.  `body` is the (decoded) `name` field. -/
def createByNameAjax (body : Option String) (owner : Nat) (withUser : Bool) (s : RefStore) :
    AjaxResult × RefStore :=
  let name := pyStrip (body.getD "")
  if name = "" then (AjaxResult.badRequest "Le nom est requis", s)
  else
    match getOrCreate name owner withUser s with
    | (Except.ok (id, created), s2) => (AjaxResult.success id name created, s2)
    | (Except.error _, s2) =>
        (AjaxResult.serverError "Une erreur est survenue lors de la création.", s2)

/-- Number of rows matching one `(name, owner?)` lookup key. -/
def refKeyCount (name : String) (owner : Nat) (withUser : Bool) (s : RefStore) : Nat :=
  (s.rows.filter (refKeyMatch name owner withUser)).length

/-- `artist_create` (views.py lines 692–709): a valid `ArtistForm` is saved
with `artist.user = request.user` — a plain insert, with no lookup of an
existing artist of the same name.  `collection_create` and
`exhibition_create` behave the same way for their models. -/
def artistFormCreate (owner : Nat) (name : String) (s : RefStore) : RefStore :=
  { rows := s.rows ++ [{ id := s.nextId, name := name, user := some owner }],
    nextId := s.nextId + 1 }

/-! ### Shared reference kinds: ArtType / Support / Technique

`artworks/models.py` declares `name = models.CharField(..., unique=True)` on
each of the three shared kinds, and the generic views `_reference_create`,
`_reference_update`, `_reference_delete` (views.py lines 141–240) are the
operations that mutate them. -/

structure NamedRow where
  id : Nat
  name : String
deriving Repr, DecidableEq

structure SharedStore where
  rows : List NamedRow
  nextId : Nat
deriving Repr, DecidableEq

/-- `_reference_create`: strip the posted name; a blank name is rejected;
otherwise `get_or_create(name=name)` (no row is added when the name
exists). -/
def referenceCreate (rawName : String) (s : SharedStore) : SharedStore :=
  let n := pyStrip rawName
  if n = "" then s
  else if s.rows.any (fun r => r.name = n) then s
  else { rows := s.rows ++ [{ id := s.nextId, name := n }], nextId := s.nextId + 1 }

/-- `_reference_update`: strip the posted name; blank names and renames onto
an existing name are rejected (`filter(name=name).exists()`); an unchanged
name is a no-op; otherwise the row's name is overwritten. -/
def referenceRename (pk : Nat) (rawName : String) (s : SharedStore) : SharedStore :=
  let n := pyStrip rawName
  if n = "" then s
  else
    match s.rows.find? (fun r => r.id = pk) with
    | none => s
    | some obj =>
        if n = obj.name then s
        else if s.rows.any (fun r => r.name = n) then s
        else { s with rows := s.rows.map (fun r => if r.id = pk then { r with name := n } else r) }

/-- `_reference_delete`: the row is removed (the artwork side of the
deletion is `deleteArtType` below). -/
def referenceDelete (pk : Nat) (s : SharedStore) : SharedStore :=
  { s with rows := s.rows.filter (fun r => r.id ≠ pk) }

inductive SharedOp where
  | create (rawName : String)
  | rename (pk : Nat) (rawName : String)
  | del (pk : Nat)
deriving Repr

def applySharedOp (s : SharedStore) : SharedOp → SharedStore
  | SharedOp.create n => referenceCreate n s
  | SharedOp.rename pk n => referenceRename pk n s
  | SharedOp.del pk => referenceDelete pk s

def runSharedOps (ops : List SharedOp) (s : SharedStore) : SharedStore :=
  ops.foldl applySharedOp s

/-- Well-formedness of a shared reference table: ids are distinct and below
the autoincrement cursor, and two rows with one name are one row (the
`unique=True` column constraint). -/
def SharedWF (s : SharedStore) : Prop :=
  (s.rows.map NamedRow.id).Nodup ∧
    (∀ r1 ∈ s.rows, ∀ r2 ∈ s.rows, r1.name = r2.name → r1.id = r2.id) ∧
    ∀ r ∈ s.rows, r.id < s.nextId

/-- Number of rows of a shared reference table carrying a given name. -/
def sharedNameCount (s : SharedStore) (n : String) : Nat :=
  (s.rows.filter (fun r => r.name = n)).length

/-! ### ArtworkCatalog: `artworks/models.py`, class `Artwork`

Relations are stored as lists of foreign ids; `DecimalField` columns are
scaled integers; `DateField` columns are day numbers.  The tag set managed
by `TaggableManager` is the list of tag names attached to the artwork. -/

structure Artwork where
  id : Nat
  user : Nat
  title : String
  artists : List Nat
  creationYear : Option Int
  originCountry : String
  artType : Option Nat
  support : Option Nat
  technique : Option Nat
  height : Option Int
  width : Option Int
  depth : Option Int
  weight : Option Int
  acquisitionDate : Option Int
  acquisitionPlace : String
  price : Option Int
  provenance : String
  isFramed : Bool
  isBorrowed : Bool
  isSigned : Bool
  isAcquired : Bool
  currentLocation : String
  collections : List Nat
  exhibitions : List Nat
  parentArtwork : Option Nat
  owners : String
  tags : List String
  contextualReferences : String
  notes : String
  createdAt : Nat
  lastExhibited : Option Int
deriving Repr, DecidableEq

/-- `art_type = models.ForeignKey(ArtType, on_delete=models.SET_NULL, ...)`:
the row-level effect of deleting the referenced ArtType on one artwork. -/
def clearArtTypeRef (t : Nat) (a : Artwork) : Artwork :=
  if a.artType = some t then { a with artType := none } else a

/-- The catalog tables involved in an ArtType deletion. -/
structure CatalogState where
  artTypes : List NamedRow
  artworks : List Artwork
deriving Repr

/-- Deleting an ArtType (`_reference_delete` + the `SET_NULL` cascade the
ORM performs): the reference row disappears and every artwork pointing at
it has `art_type` set to null; no artwork row is deleted. -/
def deleteArtType (t : Nat) (s : CatalogState) : CatalogState :=
  { artTypes := s.artTypes.filter (fun r => r.id ≠ t),
    artworks := s.artworks.map (clearArtTypeRef t) }

/-! ### RotationSuggester: `artworks/views.py`, `random_suggestion` -/

/-- The queryset of `random_suggestion` (views.py lines 593–600):
`filter(user=request.user, current_location__in=["domicile", "stockage"])`
then `filter(Q(last_exhibited__lt=six_months_ago) | Q(last_exhibited__isnull=True))`
with `six_months_ago = datetime.now().date() - timedelta(days=180)`. -/
def rotationEligible (owner : Nat) (today : Int) (a : Artwork) : Bool :=
  decide (a.user = owner) &&
    (decide (a.currentLocation = "domicile") || decide (a.currentLocation = "stockage")) &&
    (match a.lastExhibited with
     | some d => decide (d < today - 180)
     | none => true)

def rotationCandidates (db : List Artwork) (owner : Nat) (today : Int) : List Artwork :=
  db.filter (rotationEligible owner today)

/-- The selection step: when the candidate queryset is non-empty the view
materializes it and draws `random.choice(artworks_list)`; the random draw
is modelled by an arbitrary index `choice` taken modulo the length. -/
def randomSuggestion (db : List Artwork) (owner : Nat) (today : Int) (choice : Nat) :
    Option Artwork :=
  let c := rotationCandidates db owner today
  if h : c.length = 0 then none
  else some (c.get ⟨choice % c.length, Nat.mod_lt _ (Nat.pos_of_ne_zero h)⟩)

/-- The three outcomes of the `random_suggestion` view: a suggestion page, a
"no suggestion" page, and the catch-all redirect to the list page with an
error message. -/
inductive SuggestionResponse where
  | suggestion (a : Artwork)
  | noSuggestion
  | errorRedirect (msg : String)
deriving Repr, DecidableEq

/-- The whole `random_suggestion` view (views.py lines 586–627): the `try`
body runs the query and renders, and `except Exception` logs, attaches a
French error message and redirects — no exception escapes.  A failure of
the storage layer is modelled by `fetch = Except.error e`. -/
def randomSuggestionView (fetch : Except String (List Artwork)) (owner : Nat) (today : Int)
    (choice : Nat) : SuggestionResponse :=
  match fetch with
  | Except.ok db =>
      match randomSuggestion db owner today choice with
      | some a => SuggestionResponse.suggestion a
      | none => SuggestionResponse.noSuggestion
  | Except.error _ =>
      SuggestionResponse.errorRedirect
        "Une erreur est survenue lors de la génération de la suggestion."

/-! ### FilterEngine: `artworks/filters.py` and `artwork_list` -/

/-- `pat` occurs at the head of `l`. -/
def strStarts : List Char → List Char → Bool
  | [], _ => true
  | _ :: _, [] => false
  | p :: ps, c :: cs => p == c && strStarts ps cs

/-- `pat` occurs somewhere in `l`. -/
def strFind (pat : List Char) : List Char → Bool
  | [] => strStarts pat []
  | c :: cs => strStarts pat (c :: cs) || strFind pat (c :: cs).tail

/-- Django `icontains`: case-insensitive substring containment. -/
def icontains (hay pat : String) : Bool :=
  strFind pat.toLower.toList hay.toLower.toList

/-- The criteria of `ArtworkFilter`: the declared `title` filter
(`lookup_expr="icontains"`), the declared `artists`
`ModelMultipleChoiceFilter`, and the generated exact / multiple-choice
filters of `Meta.fields`.  An unset criterion (`none` / `[]`) does not
constrain the queryset. -/
structure FilterCriteria where
  title : Option String
  artists : List Nat
  artType : Option Nat
  support : Option Nat
  technique : Option Nat
  creationYear : Option Int
  originCountry : Option String
  acquisitionDate : Option Int
  acquisitionPlace : Option String
  price : Option Int
  collections : List Nat
  exhibitions : List Nat
  parentArtwork : Option Nat
  owners : Option String
  currentLocation : Option String
  isSigned : Option Bool
  isFramed : Option Bool
  isBorrowed : Option Bool
  isAcquired : Option Bool
deriving Repr, DecidableEq

def matchOpt (o : Option α) (f : α → Bool) : Bool :=
  match o with
  | none => true
  | some v => f v

/-- Membership filter of a `ModelMultipleChoiceFilter`: an empty selection
does not filter, otherwise the artwork must be linked to one of the
selected rows. -/
def matchMulti (sel : List Nat) (links : List Nat) : Bool :=
  sel.isEmpty || links.any (fun l => sel.contains l)

/-- The conjunction of predicates `ArtworkFilter.qs` applies. -/
def matchesCriteria (c : FilterCriteria) (a : Artwork) : Bool :=
  matchOpt c.title (fun s => icontains a.title s) &&
  matchMulti c.artists a.artists &&
  matchOpt c.artType (fun v => decide (a.artType = some v)) &&
  matchOpt c.support (fun v => decide (a.support = some v)) &&
  matchOpt c.technique (fun v => decide (a.technique = some v)) &&
  matchOpt c.creationYear (fun v => decide (a.creationYear = some v)) &&
  matchOpt c.originCountry (fun v => decide (a.originCountry = v)) &&
  matchOpt c.acquisitionDate (fun v => decide (a.acquisitionDate = some v)) &&
  matchOpt c.acquisitionPlace (fun v => decide (a.acquisitionPlace = v)) &&
  matchOpt c.price (fun v => decide (a.price = some v)) &&
  matchMulti c.collections a.collections &&
  matchMulti c.exhibitions a.exhibitions &&
  matchOpt c.parentArtwork (fun v => decide (a.parentArtwork = some v)) &&
  matchOpt c.owners (fun v => decide (a.owners = v)) &&
  matchOpt c.currentLocation (fun v => decide (a.currentLocation = v)) &&
  matchOpt c.isSigned (fun v => decide (a.isSigned = v)) &&
  matchOpt c.isFramed (fun v => decide (a.isFramed = v)) &&
  matchOpt c.isBorrowed (fun v => decide (a.isBorrowed = v)) &&
  matchOpt c.isAcquired (fun v => decide (a.isAcquired = v))

/-- `artwork_list` (views.py lines 303–345): the base queryset is
`Artwork.objects.filter(user=request.user)` and `ArtworkFilter` is applied
on top of it, so predicates only ever narrow the owner-restricted set. -/
def filterCatalog (owner : Nat) (c : FilterCriteria) (db : List Artwork) : List Artwork :=
  (db.filter (fun a => a.user = owner)).filter (matchesCriteria c)

/-- The empty GET query string: every criterion unset. -/
def emptyCriteria : FilterCriteria :=
  { title := none, artists := [], artType := none, support := none, technique := none,
    creationYear := none, originCountry := none, acquisitionDate := none,
    acquisitionPlace := none, price := none, collections := [], exhibitions := [],
    parentArtwork := none, owners := none, currentLocation := none, isSigned := none,
    isFramed := none, isBorrowed := none, isAcquired := none }

/-! ### Filter option lists and `Meta.fields` (`artwork_list`, `filters.py`) -/

/-- `Artist.objects.filter(artwork__user=request.user).distinct()`
(views.py line 308): artist choices offered by the filter form. -/
def artistOptions (artistRows : List RefEntity) (db : List Artwork) (owner : Nat) :
    List RefEntity :=
  artistRows.filter (fun ar => db.any (fun a => decide (a.user = owner) && a.artists.contains ar.id))

/-- `Collection.objects.filter(user=request.user)` (views.py lines 316–318). -/
def collectionOptions (rows : List RefEntity) (owner : Nat) : List RefEntity :=
  rows.filter (fun r => r.user = some owner)

/-- `Exhibition.objects.filter(user=request.user)` (views.py lines 321–323). -/
def exhibitionOptions (rows : List RefEntity) (owner : Nat) : List RefEntity :=
  rows.filter (fun r => r.user = some owner)

/-- The tag choices the view prepares inside `if "tags" in artwork_fields:`
(views.py lines 330–342): tags attached to at least one artwork of the
requesting owner. -/
def tagOptions (tagNames : List String) (db : List Artwork) (owner : Nat) : List String :=
  tagNames.filter (fun t => db.any (fun a => decide (a.user = owner) && a.tags.contains t))

/-- `ArtworkFilter.Meta.fields` verbatim (filters.py lines 58–85). -/
def artworkFilterMetaFields : List String :=
  ["artists", "art_type", "support", "technique", "creation_year", "origin_country",
   "acquisition_date", "acquisition_place", "price",
   "keywords", "collections", "exhibitions", "parent_artwork", "owners",
   "current_location", "is_signed", "is_framed", "is_borrowed", "is_acquired"]

/-- The column / relation names of the `Artwork` model (models.py lines
199–330), the names `Meta.fields` may legally mention. -/
def artworkModelFieldNames : List String :=
  ["id", "user", "title", "artists", "creation_year", "origin_country", "art_type",
   "support", "technique", "height", "width", "depth", "weight", "acquisition_date",
   "acquisition_place", "price", "provenance", "is_framed", "is_borrowed", "is_signed",
   "is_acquired", "current_location", "collections", "exhibitions", "parent_artwork",
   "owners", "tags", "contextual_references", "notes", "created_at", "updated_at",
   "last_exhibited"]

/-! ### Concrete sample data used to instantiate the theorems -/

def baseArtwork : Artwork :=
  { id := 1, user := 0, title := "Sans titre", artists := [], creationYear := none,
    originCountry := "", artType := none, support := none, technique := none,
    height := none, width := none, depth := none, weight := none,
    acquisitionDate := none, acquisitionPlace := "", price := none, provenance := "",
    isFramed := false, isBorrowed := false, isSigned := false, isAcquired := true,
    currentLocation := "domicile", collections := [], exhibitions := [],
    parentArtwork := none, owners := "", tags := [], contextualReferences := "",
    notes := "", createdAt := 0, lastExhibited := none }

def demoEligible : Artwork :=
  { baseArtwork with id := 1, user := 0, currentLocation := "stockage",
                     lastExhibited := some 100, artType := some 5, tags := ["paysage"] }

def demoForeign : Artwork :=
  { baseArtwork with id := 2, user := 1, title := "Autre", createdAt := 1 }

def demoDb : List Artwork := [demoEligible, demoForeign]

def demoPhotoA : Photo :=
  { pk := 1, artwork := 1, caption := "face", isPrimary := true, createdAt := 0 }

def demoPhotoB : Photo :=
  { pk := 2, artwork := 1, caption := "dos", isPrimary := true, createdAt := 1 }

def emptyRefStore : RefStore := { rows := [], nextId := 1 }

def emptySharedStore : SharedStore := { rows := [], nextId := 1 }

def demoCatalog : CatalogState :=
  { artTypes := [{ id := 5, name := "Peinture" }], artworks := [demoEligible, demoForeign] }

/-! ## Helper lemmas -/

/-- In a list whose keys are pairwise distinct, a predicate all of whose
satisfying elements share one key holds at most once. -/
theorem filter_length_le_one_of_key {α : Type} (l : List α) (key : α → Nat) (p : α → Bool)
    (hnd : (l.map key).Nodup)
    (h : ∀ x ∈ l, ∀ y ∈ l, p x = true → p y = true → key x = key y) :
    (l.filter p).length ≤ 1 := by
  induction l with
  | nil => simp
  | cons x xs ih =>
    rw [List.map_cons, List.nodup_cons] at hnd
    by_cases hx : p x = true
    · rw [List.filter_cons_of_pos hx]
      have hnil : xs.filter p = [] := by
        rw [List.filter_eq_nil_iff]
        intro y hy hpy
        have hk := h y (List.mem_cons_of_mem _ hy) x (List.mem_cons_self _ _) hpy hx
        exact hnd.1 (hk ▸ List.mem_map_of_mem key hy)
      simp [hnil]
    · rw [List.filter_cons_of_neg (by simpa using hx)]
      exact ih hnd.2
        (fun a ha b hb => h a (List.mem_cons_of_mem _ ha) b (List.mem_cons_of_mem _ hb))

/-! ## Claim theorems -/

/-- C7: deleting a photo — in particular the primary photo — removes
exactly that row; every remaining photo of the artwork is the unchanged
original row (so no `is_primary` flag changes and nothing is promoted), and
when the deleted photo was the only primary one, the artwork is left with
zero primary photos. -/
theorem delete_photo_no_promotion (db : List Photo) (k : Nat) :
    (∀ q, q ∈ deletePhoto k db ↔ q ∈ db ∧ q.pk ≠ k) ∧
    (∀ aw, (∀ q ∈ db, q.artwork = aw → q.isPrimary = true → q.pk = k) →
      primaryCount (deletePhoto k db) aw = 0) := by
  constructor
  · intro q
    simp [deletePhoto, List.mem_filter]
  · intro aw h
    have hnil : (deletePhoto k db).filter (fun q => q.artwork = aw ∧ q.isPrimary = true) = [] := by
      rw [List.filter_eq_nil_iff]
      intro q hq hpq
      rcases List.mem_filter.mp hq with ⟨hqdb, hqk⟩
      have hqk : q.pk ≠ k := by simpa using hqk
      have hpq : q.artwork = aw ∧ q.isPrimary = true := by simpa using hpq
      exact hqk (h q hqdb hpq.1 hpq.2)
    simp only [primaryCount]
    rw [hnil]
    rfl

theorem delete_photo_no_promotion_witness :
    primaryCount (deletePhoto 1 [demoPhotoA]) 1 = 0 ∧
      (demoPhotoA ∈ deletePhoto 2 [demoPhotoA] ↔ demoPhotoA ∈ [demoPhotoA] ∧ demoPhotoA.pk ≠ 2) :=
  ⟨(delete_photo_no_promotion [demoPhotoA] 1).2 1 (by decide),
   (delete_photo_no_promotion [demoPhotoA] 2).1 demoPhotoA⟩

/-- C10: a create-by-name request whose name is absent, empty or
whitespace-only is answered with the 400 error "Le nom est requis" and the
reference store is left unchanged. -/
theorem create_blank_name_rejected (body : Option String) (owner : Nat) (withUser : Bool)
    (s : RefStore) (h : pyStrip (body.getD "") = "") :
    createByNameAjax body owner withUser s = (AjaxResult.badRequest "Le nom est requis", s) := by
  simp [createByNameAjax, h]

theorem create_blank_name_rejected_witness :
    pyStrip ((some "  " : Option String).getD "") = "" ∧
      createByNameAjax (some "  ") 7 true emptyRefStore =
        (AjaxResult.badRequest "Le nom est requis", emptyRefStore) :=
  ⟨by decide, create_blank_name_rejected (some "  ") 7 true emptyRefStore (by decide)⟩

/-- C9 (divergence witness): `ArtworkFilter.Meta.fields` offers no `tags`
criterion — it names `keywords` instead, which is not a field of the
`Artwork` model (whose tag relation is called `tags`), so the tag
set-membership filter the view prepares is never offered. -/
theorem filter_tag_option_divergence :
    "keywords" ∈ artworkFilterMetaFields ∧
      "keywords" ∉ artworkModelFieldNames ∧
      "tags" ∉ artworkFilterMetaFields := by
  decide

/-- C3: every artwork produced by the filtering pipeline belongs to the
requesting owner, because predicates are applied to the owner-restricted
base queryset; with no criteria the result is exactly the owner's
artworks. -/
theorem filter_catalog_owner_isolation (owner : Nat) (c : FilterCriteria) (db : List Artwork) :
    (∀ a, a ∈ filterCatalog owner c db → a.user = owner) ∧
    (∀ a, a ∈ filterCatalog owner emptyCriteria db ↔ a ∈ db ∧ a.user = owner) := by
  constructor
  · intro a ha
    have hbase := (List.mem_filter.mp ha).1
    have := (List.mem_filter.mp hbase).2
    simpa using this
  · intro a
    constructor
    · intro ha
      have hbase := (List.mem_filter.mp ha).1
      have hmem := List.mem_filter.mp hbase
      exact ⟨hmem.1, by simpa using hmem.2⟩
    · rintro ⟨hmem, huser⟩
      refine List.mem_filter.mpr ⟨List.mem_filter.mpr ⟨hmem, by simp [huser]⟩, ?_⟩
      simp [matchesCriteria, emptyCriteria, matchOpt, matchMulti]

theorem filter_catalog_owner_isolation_witness :
    (demoEligible ∈ filterCatalog 0 emptyCriteria demoDb ↔
        demoEligible ∈ demoDb ∧ demoEligible.user = 0) ∧
      demoEligible.user = 0 :=
  ⟨(filter_catalog_owner_isolation 0 emptyCriteria demoDb).2 demoEligible,
   (filter_catalog_owner_isolation 0 emptyCriteria demoDb).1 demoEligible
     ((filter_catalog_owner_isolation 0 emptyCriteria demoDb).2 demoEligible |>.mpr
       ⟨by decide, by decide⟩)⟩

/-- C8: every internal failure of the suggestion computation is caught by
the view and turned into the neutral redirect-with-message outcome — the
error value never escapes; an empty candidate set yields the
"no suggestion" page. -/
theorem suggestion_error_degrades (owner : Nat) (today : Int) (choice : Nat) :
    (∀ e, randomSuggestionView (Except.error e) owner today choice =
        SuggestionResponse.errorRedirect
          "Une erreur est survenue lors de la génération de la suggestion.") ∧
    (∀ db, rotationCandidates db owner today = [] →
        randomSuggestionView (Except.ok db) owner today choice =
          SuggestionResponse.noSuggestion) := by
  constructor
  · intro e
    rfl
  · intro db h
    simp [randomSuggestionView, randomSuggestion, h]

theorem suggestion_error_degrades_witness :
    randomSuggestionView (Except.error "database unavailable") 0 1000 3 =
        SuggestionResponse.errorRedirect
          "Une erreur est survenue lors de la génération de la suggestion." ∧
      randomSuggestionView (Except.ok []) 0 1000 3 = SuggestionResponse.noSuggestion :=
  ⟨(suggestion_error_degrades 0 1000 3).1 "database unavailable",
   (suggestion_error_degrades 0 1000 3).2 [] rfl⟩

/-- C6: deleting an ArtType keeps every artwork row alive: the table keeps
its length, each artwork survives with `art_type` nulled exactly when it
referenced the deleted row, and every other column is untouched. -/
theorem arttype_delete_preserves_artworks (s : CatalogState) (t : Nat) :
    ((deleteArtType t s).artworks.length = s.artworks.length) ∧
    (∀ a ∈ s.artworks,
      clearArtTypeRef t a ∈ (deleteArtType t s).artworks ∧
      (a.artType = some t → (clearArtTypeRef t a).artType = none) ∧
      (a.artType ≠ some t → clearArtTypeRef t a = a) ∧
      (clearArtTypeRef t a).id = a.id ∧
      (clearArtTypeRef t a).user = a.user ∧
      (clearArtTypeRef t a).title = a.title ∧
      (clearArtTypeRef t a).artists = a.artists ∧
      (clearArtTypeRef t a).support = a.support ∧
      (clearArtTypeRef t a).technique = a.technique ∧
      (clearArtTypeRef t a).creationYear = a.creationYear ∧
      (clearArtTypeRef t a).price = a.price ∧
      (clearArtTypeRef t a).currentLocation = a.currentLocation ∧
      (clearArtTypeRef t a).collections = a.collections ∧
      (clearArtTypeRef t a).exhibitions = a.exhibitions ∧
      (clearArtTypeRef t a).parentArtwork = a.parentArtwork ∧
      (clearArtTypeRef t a).tags = a.tags ∧
      (clearArtTypeRef t a).notes = a.notes ∧
      (clearArtTypeRef t a).createdAt = a.createdAt ∧
      (clearArtTypeRef t a).lastExhibited = a.lastExhibited) := by
  refine ⟨by simp [deleteArtType], ?_⟩
  intro a ha
  refine ⟨List.mem_map_of_mem _ ha, ?_, ?_, ?_⟩
  · intro h
    simp [clearArtTypeRef, h]
  · intro h
    simp [clearArtTypeRef, h]
  · unfold clearArtTypeRef
    split <;> simp

theorem arttype_delete_preserves_artworks_witness :
    clearArtTypeRef 5 demoEligible ∈ (deleteArtType 5 demoCatalog).artworks ∧
      (clearArtTypeRef 5 demoEligible).artType = none ∧
      (clearArtTypeRef 5 demoEligible).title = demoEligible.title :=
  ⟨((arttype_delete_preserves_artworks demoCatalog 5).2 demoEligible (by decide)).1,
   ((arttype_delete_preserves_artworks demoCatalog 5).2 demoEligible (by decide)).2.1
     (by decide),
   ((arttype_delete_preserves_artworks demoCatalog 5).2 demoEligible (by decide)).2.2.2.2.2.1⟩

/-- C2: the rotation candidate set consists exactly of the requester's
artworks located at home or in storage whose `last_exhibited` is unset or
strictly older than 180 days before today; an empty candidate set yields no
suggestion, each candidate position is the suggestion of the matching
random draw, and a lone candidate is always the suggestion. -/
theorem rotation_suggestion_spec (db : List Artwork) (owner : Nat) (today : Int) (choice : Nat) :
    (∀ a, a ∈ rotationCandidates db owner today ↔
        a ∈ db ∧ a.user = owner ∧
          (a.currentLocation = "domicile" ∨ a.currentLocation = "stockage") ∧
          ∀ d, a.lastExhibited = some d → d < today - 180) ∧
    (rotationCandidates db owner today = [] →
        randomSuggestion db owner today choice = none) ∧
    (∀ k (hk : k < (rotationCandidates db owner today).length),
        randomSuggestion db owner today k =
          some ((rotationCandidates db owner today).get ⟨k, hk⟩)) ∧
    (∀ a, rotationCandidates db owner today = [a] →
        randomSuggestion db owner today choice = some a) := by
  refine ⟨?_, ?_, ?_, ?_⟩
  · intro a
    rw [rotationCandidates, List.mem_filter]
    unfold rotationEligible
    cases hle : a.lastExhibited <;>
      simp [hle, Bool.and_eq_true, decide_eq_true_eq, and_assoc]
  · intro h
    simp [randomSuggestion, h]
  · intro k hk
    have hlen : (rotationCandidates db owner today).length ≠ 0 :=
      Nat.pos_iff_ne_zero.mp (Nat.lt_of_le_of_lt (Nat.zero_le _) hk)
    simp only [randomSuggestion, dif_neg hlen]
    exact congrArg some
      (congrArg (rotationCandidates db owner today).get (Fin.ext (Nat.mod_eq_of_lt hk)))
  · intro a h
    have h1 : (rotationCandidates db owner today).length ≠ 0 := by simp [h]
    simp only [randomSuggestion, dif_neg h1]
    have hmem := List.get_mem (rotationCandidates db owner today)
      (choice % (rotationCandidates db owner today).length)
      (Nat.mod_lt _ (Nat.pos_of_ne_zero h1))
    have hall : ∀ x ∈ rotationCandidates db owner today, x = a := by
      intro x hx
      rw [h] at hx
      exact List.mem_singleton.mp hx
    exact congrArg some (hall _ hmem)

theorem rotation_suggestion_spec_witness :
    rotationCandidates demoDb 0 1000 = [demoEligible] ∧
      randomSuggestion demoDb 0 1000 42 = some demoEligible :=
  ⟨by decide, (rotation_suggestion_spec demoDb 0 1000 42).2.2.2 demoEligible (by decide)⟩

/-! ## Photo-save invariant lemmas (towards C1) -/

theorem clearOther_pk (p q : Photo) : (clearOther p q).pk = q.pk := by
  unfold clearOther
  split <;> rfl

theorem clearOther_artwork (p q : Photo) : (clearOther p q).artwork = q.artwork := by
  unfold clearOther
  split <;> rfl

/-- A photo still flagged primary after the sibling-clearing pass was not
touched by it: it is outside the artwork or it is the saved row itself. -/
theorem clearOther_primary {p q : Photo} (h : (clearOther p q).isPrimary = true) :
    clearOther p q = q ∧ (q.artwork ≠ p.artwork ∨ q.pk = p.pk) := by
  unfold clearOther at h ⊢
  split at h
  case isTrue hc => simp at h
  case isFalse hc =>
    rw [if_neg hc]
    refine ⟨rfl, ?_⟩
    by_cases ha : q.artwork = p.artwork
    · right
      by_contra hpk
      exact hc ⟨ha, hpk⟩
    · left
      exact ha

/-- Rows of the upserted table: the saved row, or an untouched row with a
different primary key. -/
theorem mem_upsertPhoto {p r : Photo} {db : List Photo} (hr : r ∈ upsertPhoto p db) :
    r = p ∨ (r ∈ db ∧ r.pk ≠ p.pk) := by
  unfold upsertPhoto at hr
  split at hr
  case isTrue hex =>
    rcases List.mem_map.mp hr with ⟨q, hq, hfq⟩
    by_cases hpk : q.pk = p.pk
    · left
      rw [← hfq, if_pos hpk]
    · right
      rw [← hfq, if_neg hpk]
      exact ⟨hq, hpk⟩
  case isFalse hex =>
    have hno : ∀ q ∈ db, ¬q.pk = p.pk := by simpa using hex
    rcases List.mem_append.mp hr with h | h
    · exact Or.inr ⟨h, hno r h⟩
    · exact Or.inl (List.mem_singleton.mp h)

theorem eq_of_mem_upsertPhoto_pk {p r : Photo} {db : List Photo} (hr : r ∈ upsertPhoto p db)
    (hpk : r.pk = p.pk) : r = p := by
  rcases mem_upsertPhoto hr with h | h
  · exact h
  · exact absurd hpk h.2

theorem upsertPhoto_pks_nodup {p : Photo} {db : List Photo} (h : (db.map Photo.pk).Nodup) :
    ((upsertPhoto p db).map Photo.pk).Nodup := by
  unfold upsertPhoto
  split
  case isTrue hex =>
    have heq : (db.map (fun q => if q.pk = p.pk then p else q)).map Photo.pk =
        db.map Photo.pk := by
      rw [List.map_map]
      apply List.map_congr_left
      intro q _
      by_cases hpk : q.pk = p.pk
      · simp [hpk]
      · simp [hpk]
    rw [heq]
    exact h
  case isFalse hex =>
    have hno : ∀ q ∈ db, ¬q.pk = p.pk := by simpa using hex
    rw [List.map_append]
    rw [List.nodup_append]
    refine ⟨h, List.nodup_singleton _, ?_⟩
    intro x hx hx1
    rcases List.mem_map.mp hx with ⟨q, hq, hqx⟩
    rw [List.mem_singleton.mp hx1] at hqx
    exact hno q hq hqx

theorem artworkPhotoSave_pks_nodup (p : Photo) (db : List Photo)
    (h : (db.map Photo.pk).Nodup) : ((artworkPhotoSave p db).map Photo.pk).Nodup := by
  unfold artworkPhotoSave
  split
  · have heq : ((upsertPhoto p db).map (clearOther p)).map Photo.pk =
        (upsertPhoto p db).map Photo.pk := by
      rw [List.map_map]
      apply List.map_congr_left
      intro q _
      exact clearOther_pk p q
    rw [heq]
    exact upsertPhoto_pks_nodup h
  · exact upsertPhoto_pks_nodup h

theorem artworkPhotoSave_pairwise (p : Photo) (db : List Photo) (hWF : PhotoWF db) :
    ∀ q1 ∈ artworkPhotoSave p db, ∀ q2 ∈ artworkPhotoSave p db,
      q1.isPrimary = true → q2.isPrimary = true → q1.artwork = q2.artwork →
        q1.pk = q2.pk := by
  obtain ⟨hnd, hpair⟩ := hWF
  intro q1 h1 q2 h2 hp1 hp2 haw
  unfold artworkPhotoSave at h1 h2
  by_cases hp : p.isPrimary = true
  · rw [if_pos hp] at h1 h2
    rcases List.mem_map.mp h1 with ⟨r1, hr1, he1⟩
    rcases List.mem_map.mp h2 with ⟨r2, hr2, he2⟩
    subst he1
    subst he2
    obtain ⟨heq1, hcase1⟩ := clearOther_primary hp1
    obtain ⟨heq2, hcase2⟩ := clearOther_primary hp2
    rw [clearOther_pk, clearOther_pk]
    rw [clearOther_artwork, clearOther_artwork] at haw
    rw [heq1] at hp1
    rw [heq2] at hp2
    rcases hcase1 with ha1 | hk1
    · rcases hcase2 with ha2 | hk2
      · -- both outside the saved artwork: untouched rows of the old table
        have hm1 : r1 ∈ db := by
          rcases mem_upsertPhoto hr1 with h | h
          · exact absurd (h ▸ rfl) ha1
          · exact h.1
        have hm2 : r2 ∈ db := by
          rcases mem_upsertPhoto hr2 with h | h
          · exact absurd (h ▸ rfl) ha2
          · exact h.1
        exact hpair r1 hm1 r2 hm2 hp1 hp2 haw
      · -- r2 is the saved row: r1 would be a cleared sibling
        have hr2p : r2 = p := eq_of_mem_upsertPhoto_pk hr2 hk2
        exact absurd (haw.trans (hr2p ▸ rfl)) ha1
    · rcases hcase2 with ha2 | hk2
      · have hr1p : r1 = p := eq_of_mem_upsertPhoto_pk hr1 hk1
        exact absurd (haw.symm.trans (hr1p ▸ rfl)) ha2
      · exact hk1.trans hk2.symm
  · rw [if_neg hp] at h1 h2
    have hm1 : q1 ∈ db := by
      rcases mem_upsertPhoto h1 with h | h
      · exact absurd (h ▸ hp1) hp
      · exact h.1
    have hm2 : q2 ∈ db := by
      rcases mem_upsertPhoto h2 with h | h
      · exact absurd (h ▸ hp2) hp
      · exact h.1
    exact hpair q1 hm1 q2 hm2 hp1 hp2 haw

theorem artworkPhotoSave_WF (p : Photo) (db : List Photo) (h : PhotoWF db) :
    PhotoWF (artworkPhotoSave p db) :=
  ⟨artworkPhotoSave_pks_nodup p db h.1, artworkPhotoSave_pairwise p db h⟩

theorem deletePhoto_WF {k : Nat} {db : List Photo} (h : PhotoWF db) :
    PhotoWF (deletePhoto k db) := by
  obtain ⟨hnd, hpair⟩ := h
  refine ⟨?_, ?_⟩
  · exact List.Nodup.sublist ((List.filter_sublist db).map Photo.pk) hnd
  · intro q1 h1 q2 h2 hp1 hp2 haw
    exact hpair q1 (List.mem_of_mem_filter h1) q2 (List.mem_of_mem_filter h2) hp1 hp2 haw

theorem runPhotoOps_WF (ops : List PhotoOp) : PhotoWF (runPhotoOps ops) := by
  suffices h : ∀ db, PhotoWF db → PhotoWF (ops.foldl applyPhotoOp db) from
    h [] ⟨List.nodup_nil, by simp⟩
  induction ops with
  | nil => exact fun db h => h
  | cons op ops ih =>
    intro db h
    apply ih
    cases op with
    | save p => exact artworkPhotoSave_WF p db h
    | del k => exact deletePhoto_WF h

theorem primaryCount_le_one_of_WF {db : List Photo} (h : PhotoWF db) (aw : Nat) :
    primaryCount db aw ≤ 1 := by
  apply filter_length_le_one_of_key db Photo.pk _ h.1
  intro x hx y hy hpx hpy
  have hx1 : x.artwork = aw ∧ x.isPrimary = true := by simpa using hpx
  have hy1 : y.artwork = aw ∧ y.isPrimary = true := by simpa using hpy
  exact h.2 x hx y hy hx1.2 hy1.2 (hx1.1.trans hy1.1.symm)

/-- C1: saving a photo preserves the primary-photo well-formedness of the
table; when the saved photo is primary, the same save clears `is_primary`
on every other photo of that artwork; and along any sequence of photo
save / delete operations each artwork has at most one primary photo. -/
theorem photo_primary_invariant (db : List Photo) (p : Photo) (ops : List PhotoOp) (aw : Nat) :
    (PhotoWF db → PhotoWF (artworkPhotoSave p db)) ∧
    (p.isPrimary = true → ∀ q ∈ artworkPhotoSave p db,
        q.artwork = p.artwork → q.pk ≠ p.pk → q.isPrimary = false) ∧
    primaryCount (runPhotoOps ops) aw ≤ 1 := by
  refine ⟨fun h => artworkPhotoSave_WF p db h, ?_,
    primaryCount_le_one_of_WF (runPhotoOps_WF ops) aw⟩
  intro hp q hq haw hpk
  unfold artworkPhotoSave at hq
  rw [if_pos hp] at hq
  rcases List.mem_map.mp hq with ⟨r, hr, he⟩
  subst he
  rw [clearOther_artwork] at haw
  rw [clearOther_pk] at hpk
  unfold clearOther
  rw [if_pos ⟨haw, hpk⟩]

theorem photo_primary_invariant_witness :
    PhotoWF (artworkPhotoSave demoPhotoA []) ∧
      (∀ q ∈ artworkPhotoSave demoPhotoB [demoPhotoA],
          q.artwork = demoPhotoB.artwork → q.pk ≠ demoPhotoB.pk → q.isPrimary = false) ∧
      primaryCount (runPhotoOps [PhotoOp.save demoPhotoA, PhotoOp.save demoPhotoB]) 1 ≤ 1 :=
  ⟨(photo_primary_invariant [] demoPhotoA [] 1).1 ⟨by decide, by decide⟩,
   (photo_primary_invariant [demoPhotoA] demoPhotoB [] 1).2.1 (by decide),
   (photo_primary_invariant [] demoPhotoA
     [PhotoOp.save demoPhotoA, PhotoOp.save demoPhotoB] 1).2.2⟩

/-! ## Find-or-create lemmas (towards C4, C5, C10) -/

theorem getOrCreate_of_filter_nil {name : String} {owner : Nat} {withUser : Bool} {s : RefStore}
    (hf : s.rows.filter (refKeyMatch name owner withUser) = []) :
    getOrCreate name owner withUser s =
      (Except.ok (s.nextId, true),
        { rows := s.rows ++
            [{ id := s.nextId, name := name, user := if withUser then some owner else none }],
          nextId := s.nextId + 1 }) := by
  unfold getOrCreate
  rw [hf]

theorem getOrCreate_of_filter_single {name : String} {owner : Nat} {withUser : Bool}
    {s : RefStore} {e : RefEntity}
    (hf : s.rows.filter (refKeyMatch name owner withUser) = [e]) :
    getOrCreate name owner withUser s = (Except.ok (e.id, false), s) := by
  unfold getOrCreate
  rw [hf]

theorem getOrCreate_of_filter_multi {name : String} {owner : Nat} {withUser : Bool}
    {s : RefStore} {e1 e2 : RefEntity} {rest : List RefEntity}
    (hf : s.rows.filter (refKeyMatch name owner withUser) = e1 :: e2 :: rest) :
    getOrCreate name owner withUser s = (Except.error "MultipleObjectsReturned", s) := by
  unfold getOrCreate
  rw [hf]

/-- The freshly inserted row satisfies the lookup key it was created
from. -/
theorem refKeyMatch_new_row (name : String) (owner : Nat) (withUser : Bool) (i : Nat) :
    refKeyMatch name owner withUser
      { id := i, name := name, user := if withUser then some owner else none } = true := by
  cases withUser <;> simp [refKeyMatch]

theorem createByNameAjax_blank {body : Option String} {owner : Nat} {withUser : Bool}
    {s : RefStore} (h : pyStrip (body.getD "") = "") :
    createByNameAjax body owner withUser s = (AjaxResult.badRequest "Le nom est requis", s) := by
  simp [createByNameAjax, h]

theorem createByNameAjax_of_filter_nil {body : Option String} {owner : Nat} {withUser : Bool}
    {s : RefStore} (hname : pyStrip (body.getD "") ≠ "")
    (hf : s.rows.filter (refKeyMatch (pyStrip (body.getD "")) owner withUser) = []) :
    createByNameAjax body owner withUser s =
      (AjaxResult.success s.nextId (pyStrip (body.getD "")) true,
        { rows := s.rows ++
            [{ id := s.nextId, name := pyStrip (body.getD ""),
               user := if withUser then some owner else none }],
          nextId := s.nextId + 1 }) := by
  simp only [createByNameAjax]
  rw [if_neg hname, getOrCreate_of_filter_nil hf]

theorem createByNameAjax_of_filter_single {body : Option String} {owner : Nat}
    {withUser : Bool} {s : RefStore} {e : RefEntity} (hname : pyStrip (body.getD "") ≠ "")
    (hf : s.rows.filter (refKeyMatch (pyStrip (body.getD "")) owner withUser) = [e]) :
    createByNameAjax body owner withUser s =
      (AjaxResult.success e.id (pyStrip (body.getD "")) false, s) := by
  simp only [createByNameAjax]
  rw [if_neg hname, getOrCreate_of_filter_single hf]

theorem createByNameAjax_of_filter_multi {body : Option String} {owner : Nat}
    {withUser : Bool} {s : RefStore} {e1 e2 : RefEntity} {rest : List RefEntity}
    (hname : pyStrip (body.getD "") ≠ "")
    (hf : s.rows.filter (refKeyMatch (pyStrip (body.getD "")) owner withUser) =
      e1 :: e2 :: rest) :
    createByNameAjax body owner withUser s =
      (AjaxResult.serverError "Une erreur est survenue lors de la création.", s) := by
  simp only [createByNameAjax]
  rw [if_neg hname, getOrCreate_of_filter_multi hf]

/-- C4: two identical create-by-name requests with a non-blank trimmed name
against a store holding at most one row for that key return one and the
same entity id, the second reports `created = false` and changes nothing,
and exactly one row for that key remains. -/
theorem resolve_or_create_idempotent (body : Option String) (owner : Nat) (withUser : Bool)
    (s : RefStore) (hname : pyStrip (body.getD "") ≠ "")
    (hkey : refKeyCount (pyStrip (body.getD "")) owner withUser s ≤ 1) :
    ∃ id c1,
      (createByNameAjax body owner withUser s).1 =
          AjaxResult.success id (pyStrip (body.getD "")) c1 ∧
      (createByNameAjax body owner withUser
          ((createByNameAjax body owner withUser s).2)).1 =
          AjaxResult.success id (pyStrip (body.getD "")) false ∧
      (createByNameAjax body owner withUser
          ((createByNameAjax body owner withUser s).2)).2 =
          (createByNameAjax body owner withUser s).2 ∧
      refKeyCount (pyStrip (body.getD "")) owner withUser
          ((createByNameAjax body owner withUser s).2) = 1 := by
  rcases hf : s.rows.filter (refKeyMatch (pyStrip (body.getD "")) owner withUser) with
    - | ⟨e, rest⟩
  · -- no existing row: the first call inserts, the second finds the insert
    have h1 := createByNameAjax_of_filter_nil hname hf
    have hf2 : ((createByNameAjax body owner withUser s).2).rows.filter
        (refKeyMatch (pyStrip (body.getD "")) owner withUser) =
        [{ id := s.nextId, name := pyStrip (body.getD ""),
           user := if withUser then some owner else none }] := by
      rw [h1, List.filter_append, hf]
      simp [refKeyMatch_new_row]
    have h2 := createByNameAjax_of_filter_single hname hf2
    refine ⟨s.nextId, true, ?_, ?_, ?_, ?_⟩
    · rw [h1]
    · rw [h2]
    · rw [h2]
    · rw [refKeyCount, hf2]
      rfl
  · -- at least one existing row: with the key count bound, exactly one
    have hrest : rest = [] := by
      have hlen : (s.rows.filter
          (refKeyMatch (pyStrip (body.getD "")) owner withUser)).length ≤ 1 := hkey
      rw [hf] at hlen
      simpa using List.length_eq_zero.mp (Nat.le_zero.mp (Nat.succ_le_succ_iff.mp hlen))
    subst hrest
    have h1 := createByNameAjax_of_filter_single hname hf
    have hf2 : ((createByNameAjax body owner withUser s).2).rows.filter
        (refKeyMatch (pyStrip (body.getD "")) owner withUser) = [e] := by
      rw [h1]
      exact hf
    have h2 := createByNameAjax_of_filter_single hname hf2
    refine ⟨e.id, false, ?_, ?_, ?_, ?_⟩
    · rw [h1]
    · rw [h2]
    · rw [h2]
    · rw [refKeyCount, hf2]
      rfl

theorem resolve_or_create_idempotent_witness :
    ∃ id c1,
      (createByNameAjax (some " Claude Monet ") 3 true emptyRefStore).1 =
          AjaxResult.success id (pyStrip ((some " Claude Monet " : Option String).getD "")) c1 ∧
      (createByNameAjax (some " Claude Monet ") 3 true
          ((createByNameAjax (some " Claude Monet ") 3 true emptyRefStore).2)).1 =
          AjaxResult.success id (pyStrip ((some " Claude Monet " : Option String).getD "")) false ∧
      (createByNameAjax (some " Claude Monet ") 3 true
          ((createByNameAjax (some " Claude Monet ") 3 true emptyRefStore).2)).2 =
          (createByNameAjax (some " Claude Monet ") 3 true emptyRefStore).2 ∧
      refKeyCount (pyStrip ((some " Claude Monet " : Option String).getD "")) 3 true
          ((createByNameAjax (some " Claude Monet ") 3 true emptyRefStore).2) = 1 :=
  resolve_or_create_idempotent (some " Claude Monet ") 3 true emptyRefStore
    (by decide) (by decide)

/-! ## Shared reference-kind uniqueness lemmas (towards C5) -/

theorem referenceCreate_WF (rawName : String) {s : SharedStore} (h : SharedWF s) :
    SharedWF (referenceCreate rawName s) := by
  obtain ⟨hnd, hpair, hbound⟩ := h
  simp only [referenceCreate]
  split
  · exact ⟨hnd, hpair, hbound⟩
  split
  case isTrue => exact ⟨hnd, hpair, hbound⟩
  case isFalse hany =>
    have hno : ∀ r ∈ s.rows, ¬r.name = pyStrip rawName := by simpa using hany
    refine ⟨?_, ?_, ?_⟩
    · rw [List.map_append, List.nodup_append]
      refine ⟨hnd, List.nodup_singleton _, ?_⟩
      intro x hx hx1
      rcases List.mem_map.mp hx with ⟨r, hr, hrx⟩
      rw [List.mem_singleton.mp hx1] at hrx
      have hx2 : r.id = s.nextId := hrx
      exact Nat.lt_irrefl s.nextId (hx2 ▸ hbound r hr)
    · intro r1 h1 r2 h2 hname
      rcases List.mem_append.mp h1 with h1 | h1 <;>
        rcases List.mem_append.mp h2 with h2 | h2
      · exact hpair r1 h1 r2 h2 hname
      · rw [List.mem_singleton.mp h2] at hname
        exact absurd hname (hno r1 h1)
      · rw [List.mem_singleton.mp h1] at hname
        exact absurd hname.symm (hno r2 h2)
      · rw [List.mem_singleton.mp h1, List.mem_singleton.mp h2]
    · intro r hr
      rcases List.mem_append.mp hr with hr | hr
      · exact Nat.lt_succ_of_lt (hbound r hr)
      · rw [List.mem_singleton.mp hr]
        exact Nat.lt_succ_self _

theorem referenceRename_WF (pk : Nat) (rawName : String) {s : SharedStore}
    (h : SharedWF s) : SharedWF (referenceRename pk rawName s) := by
  obtain ⟨hnd, hpair, hbound⟩ := h
  simp only [referenceRename]
  split
  · exact ⟨hnd, hpair, hbound⟩
  split
  · exact ⟨hnd, hpair, hbound⟩
  split
  · exact ⟨hnd, hpair, hbound⟩
  split
  case isTrue => exact ⟨hnd, hpair, hbound⟩
  case isFalse hany =>
    have hno : ∀ r ∈ s.rows, ¬r.name = pyStrip rawName := by simpa using hany
    refine ⟨?_, ?_, ?_⟩
    · have heq : (s.rows.map
          (fun r => if r.id = pk then { r with name := pyStrip rawName } else r)).map
          NamedRow.id = s.rows.map NamedRow.id := by
        rw [List.map_map]
        apply List.map_congr_left
        intro r _
        by_cases hid : r.id = pk
        · simp [hid]
        · simp [hid]
      rw [heq]
      exact hnd
    · intro r1 h1 r2 h2 hname
      rcases List.mem_map.mp h1 with ⟨q1, hq1, he1⟩
      rcases List.mem_map.mp h2 with ⟨q2, hq2, he2⟩
      subst he1
      subst he2
      by_cases hid1 : q1.id = pk <;> by_cases hid2 : q2.id = pk
      · simp [hid1, hid2]
      · rw [if_pos hid1, if_neg hid2] at hname ⊢
        exact absurd hname.symm (hno q2 hq2)
      · rw [if_neg hid1, if_pos hid2] at hname ⊢
        exact absurd hname (hno q1 hq1)
      · rw [if_neg hid1, if_neg hid2] at hname ⊢
        exact hpair q1 hq1 q2 hq2 hname
    · intro r hr
      rcases List.mem_map.mp hr with ⟨q, hq, he⟩
      subst he
      by_cases hid : q.id = pk
      · rw [if_pos hid]
        exact hbound q hq
      · rw [if_neg hid]
        exact hbound q hq

theorem referenceDelete_WF (pk : Nat) {s : SharedStore} (h : SharedWF s) :
    SharedWF (referenceDelete pk s) := by
  obtain ⟨hnd, hpair, hbound⟩ := h
  refine ⟨?_, ?_, ?_⟩
  · exact List.Nodup.sublist ((List.filter_sublist s.rows).map NamedRow.id) hnd
  · intro r1 h1 r2 h2 hname
    exact hpair r1 (List.mem_of_mem_filter h1) r2 (List.mem_of_mem_filter h2) hname
  · intro r hr
    exact hbound r (List.mem_of_mem_filter hr)

theorem runSharedOps_WF (ops : List SharedOp) {s : SharedStore} (h : SharedWF s) :
    SharedWF (runSharedOps ops s) := by
  induction ops generalizing s with
  | nil => exact h
  | cons op ops ih =>
    apply ih
    cases op with
    | create n => exact referenceCreate_WF n h
    | rename pk n => exact referenceRename_WF pk n h
    | del pk => exact referenceDelete_WF pk h

theorem sharedNameCount_le_one {s : SharedStore} (h : SharedWF s) (n : String) :
    sharedNameCount s n ≤ 1 := by
  apply filter_length_le_one_of_key s.rows NamedRow.id _ h.1
  intro x hx y hy hpx hpy
  have hx1 : x.name = n := by simpa using hpx
  have hy1 : y.name = n := by simpa using hpy
  exact h.2.1 x hx y hy (hx1.trans hy1.symm)

/-- C5 counterexample: the owner-scoped reference kinds are not
deduplicated — submitting the artist creation form twice with the same name
for the same owner leaves two Artist rows with the identical
(owner, name) pair. -/
theorem reference_uniqueness_counterexample :
    refKeyCount "Claude Monet" 0 true
      (artistFormCreate 0 "Claude Monet"
        (artistFormCreate 0 "Claude Monet" emptyRefStore)) = 2 := by
  decide

/-- C5 (amended): the shared reference kinds (art type, support, technique)
never hold two rows with one name under any sequence of create / rename /
delete operations; for the owner-scoped kinds only the AJAX find-or-create
path preserves per-(owner, name) uniqueness — the plain creation form
inserts without any duplicate check. -/
theorem reference_uniqueness_amended (s : SharedStore) (ops : List SharedOp)
    (t : RefStore) (body : Option String) (owner : Nat) (n : String)
    (hs : SharedWF s) (ht : refKeyCount n owner true t ≤ 1) :
    (∀ m, sharedNameCount (runSharedOps ops s) m ≤ 1) ∧
      refKeyCount n owner true (createByNameAjax body owner true t).2 ≤ 1 := by
  refine ⟨fun m => sharedNameCount_le_one (runSharedOps_WF ops hs) m, ?_⟩
  by_cases hb : pyStrip (body.getD "") = ""
  · rw [createByNameAjax_blank hb]
    exact ht
  rcases hf : t.rows.filter (refKeyMatch (pyStrip (body.getD "")) owner true) with
    - | ⟨e, - | ⟨e2, rest⟩⟩
  · rw [createByNameAjax_of_filter_nil hb hf]
    by_cases hn2 : pyStrip (body.getD "") = n
    · subst hn2
      unfold refKeyCount
      rw [List.filter_append, hf]
      have hmatch : refKeyMatch (pyStrip (body.getD "")) owner true
          { id := t.nextId, name := pyStrip (body.getD ""), user := some owner } = true := by
        simp [refKeyMatch]
      simp [hmatch]
    · have hfalse : ∀ i u, refKeyMatch n owner true
          { id := i, name := pyStrip (body.getD ""), user := u } = false := by
        intro i u
        simp [refKeyMatch]
        intro h
        exact absurd h hn2
      unfold refKeyCount
      rw [List.filter_append]
      simp only [List.filter_cons, hfalse, List.filter_nil]
      simpa [refKeyCount] using ht
  · rw [createByNameAjax_of_filter_single hb hf]
    exact ht
  · rw [createByNameAjax_of_filter_multi hb hf]
    exact ht

theorem reference_uniqueness_amended_witness :
    (∀ m, sharedNameCount
        (runSharedOps [SharedOp.create "Peinture", SharedOp.create " Peinture "]
          emptySharedStore) m ≤ 1) ∧
      refKeyCount "Monet" 3 true (createByNameAjax (some "Monet") 3 true emptyRefStore).2 ≤ 1 :=
  reference_uniqueness_amended emptySharedStore
    [SharedOp.create "Peinture", SharedOp.create " Peinture "] emptyRefStore
    (some "Monet") 3 "Monet" ⟨by decide, by decide, by decide⟩ (by decide)

end Aura
